import Mathlib

/-!
Shallow embedding of the palette-generation engine in
`src/api/generate-theme.ts` (Taichi Theme Generator API, version 25.12.2).

The engine is written in TypeScript over IEEE-754 doubles.  The embedding
models every arithmetic step exactly over `ℚ` / `ℤ` and abstracts the
transcendental functions of the JS `Math` object (`sin`, `cos`, `pow`,
`cbrt`, `sqrt`, `atan2`, `PI`) behind a `FloatOps` structure: every
structural theorem below is proved for an arbitrary `FloatOps`, and
concrete witnesses instantiate it with the executable model `FQ`.
Exact JS operations (`Math.floor`, `Math.round`, `Math.abs`, `Math.min`,
`Math.max`, `%`, `<<`, string handling) are translated exactly.
-/

/-- Abstraction of the transcendental functions of the JS `Math` object
used by the engine.  Everything else in the engine is exact arithmetic. -/
structure FloatOps where
  sin : ℚ → ℚ
  cos : ℚ → ℚ
  pow : ℚ → ℚ → ℚ
  cbrt : ℚ → ℚ
  sqrt : ℚ → ℚ
  atan2 : ℚ → ℚ → ℚ
  pi : ℚ

/-- Executable floor on `ℚ` (kernel-reducible; equal to `Int.floor`,
see `ratFloor_eq`). -/
def ratFloor (q : ℚ) : ℤ := q.num / (q.den : ℤ)

/-- JS `Math.min` on two numbers. -/
def qmin (a b : ℚ) : ℚ := if a ≤ b then a else b

/-- JS `Math.max` on two numbers. -/
def qmax (a b : ℚ) : ℚ := if b ≤ a then a else b

/-- JS `Math.abs` on a rational value. -/
def qabs (x : ℚ) : ℚ := if x < 0 then -x else x

/-- JS `Math.abs` on an integer value. -/
def zabs (n : ℤ) : ℤ := if n < 0 then -n else n

/-- JS `Math.min` on integer-valued numbers. -/
def zmin (a b : ℤ) : ℤ := if a ≤ b then a else b

/-- JS `Math.max` on integer-valued numbers. -/
def zmax (a b : ℤ) : ℤ := if b ≤ a then a else b

/-- JS `Math.round`: round half toward positive infinity. -/
def jsRound (x : ℚ) : ℤ := ratFloor (x + 1/2)

/-- Truncation toward zero, the rounding used by the JS `%` operator. -/
def jsTrunc (q : ℚ) : ℤ := if q < 0 then -ratFloor (-q) else ratFloor q

/-- JS remainder operator `%` on numbers (sign follows the dividend). -/
def jsMod (a b : ℚ) : ℚ := a - b * jsTrunc (a / b)

/-- `x - Math.floor(x)`, the fractional part used by `SeededRandom.next`. -/
def jsFrac (x : ℚ) : ℚ := x - ratFloor x

/-- ECMAScript `ToInt32`: wrap an integer into `[-2^31, 2^31)`. -/
def jsToInt32 (n : ℤ) : ℤ := (n + 2147483648) % 4294967296 - 2147483648

/-- One step of `SeededRandom.hashString`:
hash equals charCodeAt plus hash shifted left by 5 minus hash, where `<<` is the JS
32-bit shift (`ToInt32` of the operand, times 32, wrapped to int32). -/
def hashStep (h : ℤ) (c : Char) : ℤ := (c.toNat : ℤ) + (jsToInt32 (jsToInt32 h * 32) - h)

/-- `SeededRandom.hashString`: rolling hash of the seed string, then `Math.abs`. -/
def hashString (s : String) : ℤ := zabs (s.data.foldl hashStep 0)

/-- `SeededRandom.next()` for a given current seed value:
x is sin of seed times 10000; the result is x minus floor x.
The caller threads the post-increment seed explicitly. -/
def rngVal (F : FloatOps) (seed : ℚ) : ℚ := jsFrac (F.sin seed * 10000)

/-- Integer RGB triple, each channel meant to be in 0..255. -/
structure RGB where
  r : ℕ
  g : ℕ
  b : ℕ
deriving DecidableEq

/-- OKLCH coordinate (source interface `OklchColor`). -/
structure OklchColor where
  L : ℚ
  C : ℚ
  H : ℚ
deriving DecidableEq

/-- Character class letters a-f and digits of the hex regex with the `i` flag:
digits, `a`-`f`, `A`-`F`. -/
def isHexDigitJS (c : Char) : Bool :=
  (48 ≤ c.toNat && c.toNat ≤ 57) || (97 ≤ c.toNat && c.toNat ≤ 102) ||
    (65 ≤ c.toNat && c.toNat ≤ 70)

/-- Value of a hex digit as in parseInt base 16 (0 on non-digits,
which the parser never feeds it). -/
def hexVal (c : Char) : ℕ :=
  if 48 ≤ c.toNat ∧ c.toNat ≤ 57 then c.toNat - 48
  else if 97 ≤ c.toNat ∧ c.toNat ≤ 102 then c.toNat - 87
  else if 65 ≤ c.toNat ∧ c.toNat ≤ 70 then c.toNat - 55
  else 0

/-- The optional leading hash character of the hex regex. -/
def stripHash (cs : List Char) : List Char :=
  match cs with
  | '#' :: rest => rest
  | other => other

/-- The regex match of `hexToRgb`: `some` of the six hex digits when the
input is an optional hash followed by six hex digits, `none` otherwise. -/
def hexDigits (s : String) : Option (List Char) :=
  let cs := stripHash s.data
  if cs.length = 6 ∧ cs.all isHexDigitJS then some cs else none

/-- `hexToRgb`: parse six hex digits (optional leading `#`) into integer
RGB; any malformed input yields RGB zero. -/
def hexToRgb (s : String) : RGB :=
  match hexDigits s with
  | some (c1 :: c2 :: c3 :: c4 :: c5 :: c6 :: _) =>
      ⟨hexVal c1 * 16 + hexVal c2, hexVal c3 * 16 + hexVal c4, hexVal c5 * 16 + hexVal c6⟩
  | _ => ⟨0, 0, 0⟩

/-- The two lowercase hex characters of `n.toString(16)` padded to two digits
for `n` in 0..255. -/
def byteChars (n : ℕ) : List Char := [Nat.digitChar (n / 16), Nat.digitChar (n % 16)]

/-- the clamp of the rounded channel in `rgbToHex`, as a natural. -/
def clampRound (x : ℚ) : ℕ := (zmax 0 (zmin 255 (jsRound x))).toNat

/-- `rgbToHex`: clamp-and-round each channel, hex-encode with 2 lowercase
digits each, prefix `#`. -/
def rgbToHex (r g b : ℚ) : String :=
  String.mk ('#' :: (byteChars (clampRound r) ++ byteChars (clampRound g) ++
    byteChars (clampRound b)))

/-- `linearizeChannel`: inverse sRGB transfer curve on a 0..255 channel. -/
def linearizeChannel (F : FloatOps) (c : ℕ) : ℚ :=
  let v : ℚ := (c : ℚ) / 255
  if v ≤ 0.04045 then v / 12.92 else F.pow ((v + 0.055) / 1.055) 2.4

/-- `delinearizeChannel`: forward sRGB transfer curve, scaled to 0..255,
clamped and rounded (round of clamp of v times 255). -/
def delinearizeChannel (F : FloatOps) (c : ℚ) : ℤ :=
  let v : ℚ := if c ≤ 0.0031308 then 12.92 * c else 1.055 * F.pow c (1 / 2.4) - 0.055
  jsRound (qmax 0 (qmin 255 (v * 255)))

/-- Body of `toOklch` after the `hexToRgb` destructuring: linear RGB →
LMS-like space → cube roots → Lab → polar `(C, H)` with `H` normalized
into `[0, 360)`. -/
def oklchFromRgb (F : FloatOps) (rgb : RGB) : OklchColor :=
  let lr := linearizeChannel F rgb.r
  let lg := linearizeChannel F rgb.g
  let lb := linearizeChannel F rgb.b
  let l := 0.4122214708 * lr + 0.5363325363 * lg + 0.0514459929 * lb
  let m := 0.2119034982 * lr + 0.6806995451 * lg + 0.1073970037 * lb
  let s := 0.0883024619 * lr + 0.2817188376 * lg + 0.6299787005 * lb
  let lc := F.cbrt l
  let mc := F.cbrt m
  let sc := F.cbrt s
  let L := 0.2104542553 * lc + 0.7936177850 * mc - 0.0040720468 * sc
  let a := 1.9779984951 * lc - 2.4285922050 * mc + 0.4505937099 * sc
  let bb := 0.0259040371 * lc + 0.7827717662 * mc - 0.8086757660 * sc
  let C := F.sqrt (a * a + bb * bb)
  let H0 := F.atan2 bb a * (180 / F.pi)
  let H := if H0 < 0 then H0 + 360 else H0
  ⟨L, C, H⟩

/-- `toOklch`: hex string → OKLCH. -/
def toOklch (F : FloatOps) (hex : String) : OklchColor := oklchFromRgb F (hexToRgb hex)

/-- `toHex`: OKLCH → hex string, with the lightness short-circuits
`L <= 0` giving black and `L >= 1` giving white. -/
def toHex (F : FloatOps) (color : OklchColor) : String :=
  if color.L ≤ 0 then "#000000"
  else if 1 ≤ color.L then "#ffffff"
  else
    let hRad := color.H * F.pi / 180
    let a := color.C * F.cos hRad
    let b := color.C * F.sin hRad
    let lc := color.L + 0.3963377774 * a + 0.2158037573 * b
    let mc := color.L - 0.1055613458 * a - 0.0638541728 * b
    let sc := color.L - 0.0894841775 * a - 1.2914855480 * b
    let l := lc * lc * lc
    let m := mc * mc * mc
    let s := sc * sc * sc
    let lr := 4.0767416621 * l - 3.3077115913 * m + 0.2309699292 * s
    let lg := -1.2684380046 * l + 2.6097574011 * m - 0.3413193965 * s
    let lb := -0.0041960863 * l - 0.7034186147 * m + 1.7076147010 * s
    rgbToHex (delinearizeChannel F lr) (delinearizeChannel F lg) (delinearizeChannel F lb)

/-- The binary-search loop of `clampToSRGBGamut`, with the remaining
iteration count made explicit (the source runs the loop body exactly 10 times). -/
def clampGo (F : FloatOps) (color : OklchColor) :
    ℕ → ℚ → ℚ → OklchColor → OklchColor
  | 0, _, _, result => result
  | n + 1, low, high, result =>
      let mid := (low + high) / 2
      let test : OklchColor := ⟨color.L, mid, color.H⟩
      let back := toOklch F (toHex F test)
      if qabs (back.L - test.L) < 0.02 ∧ qabs (back.C - test.C) < 0.02 then
        clampGo F color n mid high test
      else
        clampGo F color n low mid result

/-- `clampToSRGBGamut`: binary search for the maximal round-trip-stable
chroma in `[0, color.C]`, exactly 10 iterations, starting from the
zero-chroma fallback result the input color with chroma zeroed. -/
def clampToSRGBGamut (F : FloatOps) (color : OklchColor) : OklchColor :=
  clampGo F color 10 0 color.C ⟨color.L, 0, color.H⟩

/-- The local `toL` of `getRelativeLuminance` (WCAG channel linearization). -/
def wcagToL (F : FloatOps) (c : ℕ) : ℚ :=
  let v : ℚ := (c : ℚ) / 255
  if v ≤ 0.04045 then v / 12.92 else F.pow ((v + 0.055) / 1.055) 2.4

/-- `getRelativeLuminance`: WCAG weighted sum of linearized channels. -/
def getRelativeLuminance (F : FloatOps) (hex : String) : ℚ :=
  let rgb := hexToRgb hex
  0.2126 * wcagToL F rgb.r + 0.7152 * wcagToL F rgb.g + 0.0722 * wcagToL F rgb.b

/-- `selectForeground`: black over light backgrounds
(luminance above 0.179), white otherwise. -/
def selectForeground (F : FloatOps) (bgHex : String) : String :=
  if getRelativeLuminance F bgHex > 0.179 then "#000000" else "#FFFFFF"

/-- The nine values of the source type `GenerationMode`. -/
inductive GenerationMode where
  | random
  | monochrome
  | analogous
  | complementary
  | splitComplementary
  | triadic
  | tetradic
  | compound
  | triadicSplit
deriving DecidableEq

/-- The `HARMONY_MODES` hue-offset table.  The source looks the resolved
mode up with the fallback with an analogous fallback for missing keys;
`random` is not a key of the table, so it is mapped to the analogous
offsets here (that branch is unreachable after mode resolution). -/
def harmonyOffsets (m : GenerationMode) : List ℚ :=
  match m with
  | .monochrome => [0, 0, 0, 0, 0]
  | .analogous => [0, 30, -30, 15, -15]
  | .complementary => [0, 180, 30, 210, -30]
  | .splitComplementary => [0, 150, 210, 30, 180]
  | .triadic => [0, 120, 240, 60, 180]
  | .tetradic => [0, 90, 180, 270, 45]
  | .compound => [0, 165, 180, 195, 30]
  | .triadicSplit => [0, 120, 150, 240, 270]
  | .random => [0, 30, -30, 15, -15]

/-- The literal list `modes` that the random-mode branch of
`generateTheme` draws from. -/
def randomModes : List GenerationMode :=
  [.analogous, .complementary, .splitComplementary, .triadic, .tetradic,
    .compound, .triadicSplit]

/-- The eight keys of `HARMONY_MODES`: every concrete (non-wildcard) mode. -/
def concreteModes : List GenerationMode :=
  [.monochrome, .analogous, .complementary, .splitComplementary, .triadic,
    .tetradic, .compound, .triadicSplit]

/-- Mode resolution of `generateTheme`: the wildcard `random` picks
the modes entry at floor of rng.next times modes.length with the first draw of the
seeded generator; concrete modes pass through.  (The `.analogous` default
of `getD` is unreachable: the drawn index is always in 0..6.) -/
def resolveHarmonyMode (F : FloatOps) (mode : GenerationMode) (s0 : ℚ) : GenerationMode :=
  if mode = .random then randomModes.getD (ratFloor (rngVal F s0 * 7)).toNat .analogous else mode

/-- Seed value after mode resolution: the `random` branch consumed one
`rng.next()` call (which post-increments the seed). -/
def seedAfterMode (mode : GenerationMode) (s0 : ℚ) : ℚ :=
  if mode = .random then s0 + 1 else s0

/-- base hue from the base color if present, else rng.nextFloat of 0 and 360. -/
def resolvedBaseHue (F : FloatOps) (baseColor : Option String) (s1 : ℚ) : ℚ :=
  match baseColor with
  | some c => (toOklch F c).H
  | none => rngVal F s1 * 360

/-- Hue normalization baseHue plus offset, remainder 360, plus 360, remainder 360 with JS `%`. -/
def normHue (x : ℚ) : ℚ := jsMod (jsMod x 360 + 360) 360

/-- hues maps each offset through the hue normalization. -/
def hueList (baseHue : ℚ) (hm : GenerationMode) : List ℚ :=
  (harmonyOffsets hm).map (fun o => normHue (baseHue + o))

/-- satMod is 1 plus saturationLevel times 0.12. -/
def satMod (saturationLevel : ℚ) : ℚ := 1 + saturationLevel * 0.12

/-- briMod is brightnessLevel times 0.025. -/
def briMod (brightnessLevel : ℚ) : ℚ := brightnessLevel * 0.025

/-- conMod is contrastLevel times 0.02. -/
def conMod (contrastLevel : ℚ) : ℚ := contrastLevel * 0.02

/-- baseChroma clamps 0.14 times satMod into 0.08 to 0.18. -/
def baseChroma (saturationLevel : ℚ) : ℚ :=
  qmin 0.18 (qmax 0.08 (0.14 * satMod saturationLevel))

/-- primaryL is 0.55 plus briMod times 0.5. -/
def primaryL (bri : ℚ) : ℚ := 0.55 + briMod bri * 0.5

/-- secondaryL is 0.58 plus briMod times 0.4. -/
def secondaryL (bri : ℚ) : ℚ := 0.58 + briMod bri * 0.4

/-- accentL is 0.52 plus briMod times 0.3. -/
def accentL (bri : ℚ) : ℚ := 0.52 + briMod bri * 0.3

/-- goodL is 0.55 plus briMod times 0.3. -/
def goodL (bri : ℚ) : ℚ := 0.55 + briMod bri * 0.3

/-- warnL is 0.65 plus briMod times 0.3. -/
def warnL (bri : ℚ) : ℚ := 0.65 + briMod bri * 0.3

/-- badL is 0.52 plus briMod times 0.3. -/
def badL (bri : ℚ) : ℚ := 0.52 + briMod bri * 0.3

/-- Argument of `clampToSRGBGamut` for `lightPrimary`:
L primaryL, C baseChroma, H hues 0. -/
def lightPrimaryIn (sat bri : ℚ) (hues : List ℚ) : OklchColor :=
  ⟨primaryL bri, baseChroma sat, hues.getD 0 0⟩

/-- Argument of `clampToSRGBGamut` for `lightSecondary`:
L secondaryL, C baseChroma times 0.85, H hues 1. -/
def lightSecondaryIn (sat bri : ℚ) (hues : List ℚ) : OklchColor :=
  ⟨secondaryL bri, baseChroma sat * 0.85, hues.getD 1 0⟩

/-- Argument of `clampToSRGBGamut` for `lightAccent`:
L accentL, C baseChroma times 1.1, H hues 2. -/
def lightAccentIn (sat bri : ℚ) (hues : List ℚ) : OklchColor :=
  ⟨accentL bri, baseChroma sat * 1.1, hues.getD 2 0⟩

/-- Argument of `clampToSRGBGamut` for `lightGood`: hue fixed at 145. -/
def lightGoodIn (sat bri : ℚ) : OklchColor := ⟨goodL bri, baseChroma sat * 0.9, 145⟩

/-- Argument of `clampToSRGBGamut` for `lightWarn`: hue fixed at 85. -/
def lightWarnIn (sat bri : ℚ) : OklchColor := ⟨warnL bri, baseChroma sat * 0.85, 85⟩

/-- Argument of `clampToSRGBGamut` for `lightBad`: hue fixed at 25. -/
def lightBadIn (sat bri : ℚ) : OklchColor := ⟨badL bri, baseChroma sat * 0.95, 25⟩

/-- Argument of `clampToSRGBGamut` for `darkPrimary`:
L darkPrimaryL, C baseChroma times 0.9, H hues 0. -/
def darkPrimaryIn (sat bri : ℚ) (hues : List ℚ) : OklchColor :=
  ⟨primaryL bri + 0.08, baseChroma sat * 0.9, hues.getD 0 0⟩

/-- Argument of `clampToSRGBGamut` for `darkSecondary`:
L darkSecondaryL, C baseChroma times 0.8, H hues 1. -/
def darkSecondaryIn (sat bri : ℚ) (hues : List ℚ) : OklchColor :=
  ⟨secondaryL bri + 0.06, baseChroma sat * 0.8, hues.getD 1 0⟩

/-- Argument of `clampToSRGBGamut` for `darkAccent`:
L darkAccentL, C baseChroma, H hues 2. -/
def darkAccentIn (sat bri : ℚ) (hues : List ℚ) : OklchColor :=
  ⟨accentL bri + 0.1, baseChroma sat, hues.getD 2 0⟩

/-- Argument of `clampToSRGBGamut` for `darkGood`: hue fixed at 145. -/
def darkGoodIn (sat bri : ℚ) : OklchColor := ⟨goodL bri + 0.06, baseChroma sat * 0.85, 145⟩

/-- Argument of `clampToSRGBGamut` for `darkWarn`: hue fixed at 85. -/
def darkWarnIn (sat bri : ℚ) : OklchColor := ⟨warnL bri + 0.06, baseChroma sat * 0.8, 85⟩

/-- Argument of `clampToSRGBGamut` for `darkBad`: hue fixed at 25. -/
def darkBadIn (sat bri : ℚ) : OklchColor := ⟨badL bri + 0.08, baseChroma sat * 0.9, 25⟩

/-- The 20 semantic tokens of the source interface `ThemeTokens`. -/
structure ThemeTokens where
  bg : String
  card : String
  card2 : String
  text : String
  textMuted : String
  textOnColor : String
  primary : String
  primaryFg : String
  secondary : String
  secondaryFg : String
  accent : String
  accentFg : String
  border : String
  ring : String
  good : String
  goodFg : String
  warn : String
  warnFg : String
  bad : String
  badFg : String
deriving DecidableEq

/-- The light-theme block of `generateTheme`. -/
def lightTheme (F : FloatOps) (sat con bri : ℚ) (hues : List ℚ) : ThemeTokens :=
  let h0 := hues.getD 0 0
  let lightBgL := qmin 0.99 (qmax 0.92 (0.97 + briMod bri))
  let lightCardL := lightBgL - 0.04 - conMod con * 0.5
  let lightCard2L := lightCardL - 0.03
  let lightTextL := qmax 0.10 (0.18 - briMod bri * 0.5 - conMod con)
  let lightTextMutedL : ℚ := 0.45
  let lightBorderL : ℚ := 0.82
  let lightPrimary := clampToSRGBGamut F (lightPrimaryIn sat bri hues)
  let lightSecondary := clampToSRGBGamut F (lightSecondaryIn sat bri hues)
  let lightAccent := clampToSRGBGamut F (lightAccentIn sat bri hues)
  let lightGood := clampToSRGBGamut F (lightGoodIn sat bri)
  let lightWarn := clampToSRGBGamut F (lightWarnIn sat bri)
  let lightBad := clampToSRGBGamut F (lightBadIn sat bri)
  let neutralC : ℚ := 0.005
  let lightBg := clampToSRGBGamut F ⟨lightBgL, neutralC, h0⟩
  let lightCard := clampToSRGBGamut F ⟨lightCardL, neutralC * 1.2, h0⟩
  let lightCard2 := clampToSRGBGamut F ⟨lightCard2L, neutralC * 1.4, h0⟩
  let lightText := clampToSRGBGamut F ⟨lightTextL, neutralC * 2, h0⟩
  let lightTextMuted := clampToSRGBGamut F ⟨lightTextMutedL, neutralC * 1.5, h0⟩
  let lightBorder := clampToSRGBGamut F ⟨lightBorderL, neutralC * 2, h0⟩
  { bg := toHex F lightBg
    card := toHex F lightCard
    card2 := toHex F lightCard2
    text := toHex F lightText
    textMuted := toHex F lightTextMuted
    textOnColor := "#FFFFFF"
    primary := toHex F lightPrimary
    primaryFg := selectForeground F (toHex F lightPrimary)
    secondary := toHex F lightSecondary
    secondaryFg := selectForeground F (toHex F lightSecondary)
    accent := toHex F lightAccent
    accentFg := selectForeground F (toHex F lightAccent)
    border := toHex F lightBorder
    ring := toHex F lightPrimary
    good := toHex F lightGood
    goodFg := selectForeground F (toHex F lightGood)
    warn := toHex F lightWarn
    warnFg := selectForeground F (toHex F lightWarn)
    bad := toHex F lightBad
    badFg := selectForeground F (toHex F lightBad) }

/-- The dark-theme block of `generateTheme`. -/
def darkTheme (F : FloatOps) (sat con bri : ℚ) (hues : List ℚ) : ThemeTokens :=
  let h0 := hues.getD 0 0
  let darkBgL := qmax 0.05 (qmin 0.12 (0.08 - briMod bri * 0.3))
  let darkCardL := darkBgL + 0.05 + conMod con * 0.3
  let darkCard2L := darkCardL + 0.03
  let darkTextL := qmin 0.98 (0.92 + briMod bri * 0.3)
  let darkTextMutedL : ℚ := 0.62
  let darkBorderL : ℚ := 0.25
  let darkPrimary := clampToSRGBGamut F (darkPrimaryIn sat bri hues)
  let darkSecondary := clampToSRGBGamut F (darkSecondaryIn sat bri hues)
  let darkAccent := clampToSRGBGamut F (darkAccentIn sat bri hues)
  let darkGood := clampToSRGBGamut F (darkGoodIn sat bri)
  let darkWarn := clampToSRGBGamut F (darkWarnIn sat bri)
  let darkBad := clampToSRGBGamut F (darkBadIn sat bri)
  let darkNeutralC : ℚ := 0.008
  let darkBg := clampToSRGBGamut F ⟨darkBgL, darkNeutralC, h0⟩
  let darkCard := clampToSRGBGamut F ⟨darkCardL, darkNeutralC * 1.3, h0⟩
  let darkCard2 := clampToSRGBGamut F ⟨darkCard2L, darkNeutralC * 1.5, h0⟩
  let darkText := clampToSRGBGamut F ⟨darkTextL, darkNeutralC, h0⟩
  let darkTextMuted := clampToSRGBGamut F ⟨darkTextMutedL, darkNeutralC * 1.2, h0⟩
  let darkBorder := clampToSRGBGamut F ⟨darkBorderL, darkNeutralC * 2, h0⟩
  { bg := toHex F darkBg
    card := toHex F darkCard
    card2 := toHex F darkCard2
    text := toHex F darkText
    textMuted := toHex F darkTextMuted
    textOnColor := "#FFFFFF"
    primary := toHex F darkPrimary
    primaryFg := selectForeground F (toHex F darkPrimary)
    secondary := toHex F darkSecondary
    secondaryFg := selectForeground F (toHex F darkSecondary)
    accent := toHex F darkAccent
    accentFg := selectForeground F (toHex F darkAccent)
    border := toHex F darkBorder
    ring := toHex F darkPrimary
    good := toHex F darkGood
    goodFg := selectForeground F (toHex F darkGood)
    warn := toHex F darkWarn
    warnFg := selectForeground F (toHex F darkWarn)
    bad := toHex F darkBad
    badFg := selectForeground F (toHex F darkBad) }

/-- The return value of `generateTheme`:
light, dark, seed, and mode. -/
structure GenResult where
  light : ThemeTokens
  dark : ThemeTokens
  seed : String
  mode : GenerationMode
deriving DecidableEq

/-- Everything `generateTheme` does after mode resolution and the base-hue
draw: build the hue list, both themes, and the returned seed
(baseColor, or the hex of the gamut-clamped color at L 0.5, C 0.15, H baseHue). -/
def assemble (F : FloatOps) (hm : GenerationMode) (baseHue : ℚ)
    (sat con bri : ℚ) (baseColor : Option String) : GenResult :=
  { light := lightTheme F sat con bri (hueList baseHue hm)
    dark := darkTheme F sat con bri (hueList baseHue hm)
    seed := baseColor.getD (toHex F (clampToSRGBGamut F ⟨0.5, 0.15, baseHue⟩))
    mode := hm }

/-- `generateTheme` over mode, baseColor, and the three level arguments.
When `baseColor` is absent the source seeds the generator from the
wall clock and `Math.random()` via the template string
Date.now, a dash, and Math.random; that nondeterministic string is the
explicit `entropy` argument here, used exactly where the source uses
baseColor, falling back to entropy. -/
def generateTheme (F : FloatOps) (mode : GenerationMode) (baseColor : Option String)
    (saturationLevel contrastLevel brightnessLevel : ℚ) (entropy : String) : GenResult :=
  assemble F
    (resolveHarmonyMode F mode ((hashString (baseColor.getD entropy) : ℤ) : ℚ))
    (resolvedBaseHue F baseColor
      (seedAfterMode mode ((hashString (baseColor.getD entropy) : ℤ) : ℚ)))
    saturationLevel contrastLevel brightnessLevel baseColor

/-- The 20 fixed semantic token keys, in declaration order of `ThemeTokens`. -/
def tokenKeys : List String :=
  ["bg", "card", "card2", "text", "textMuted", "textOnColor", "primary",
    "primaryFg", "secondary", "secondaryFg", "accent", "accentFg", "border",
    "ring", "good", "goodFg", "warn", "warnFg", "bad", "badFg"]

/-- A token set as an ordered key-value list over the 20 semantic keys. -/
def tokenList (t : ThemeTokens) : List (String × String) :=
  [("bg", t.bg), ("card", t.card), ("card2", t.card2), ("text", t.text),
    ("textMuted", t.textMuted), ("textOnColor", t.textOnColor),
    ("primary", t.primary), ("primaryFg", t.primaryFg),
    ("secondary", t.secondary), ("secondaryFg", t.secondaryFg),
    ("accent", t.accent), ("accentFg", t.accentFg), ("border", t.border),
    ("ring", t.ring), ("good", t.good), ("goodFg", t.goodFg),
    ("warn", t.warn), ("warnFg", t.warnFg), ("bad", t.bad), ("badFg", t.badFg)]

/-- Well-formed color string: `#` followed by exactly six hex digits. -/
def isValidHexColor (s : String) : Bool :=
  match s.data with
  | '#' :: rest => rest.length == 6 && rest.all isHexDigitJS
  | _ => false

/-- A concrete executable instance of the abstract `FloatOps` model, used
to evaluate the engine at specific inputs in witnesses and
counterexamples.  Arguments below 100 only arise as hue angles in radians
inside `toHex`; seed values fed to `sin` by the generator are far larger. -/
def FQ : FloatOps where
  sin := fun x => if x < 100 then x / 5 else x / 100000000
  cos := fun x => if x < 100 then 1 - x / 5 else 1
  pow := fun b _ => b
  cbrt := fun _ => 0.97
  sqrt := fun x => x
  atan2 := fun _ _ => 0
  pi := 3.14159

set_option maxRecDepth 100000

section

attribute [local semireducible] Rat.add Rat.sub Rat.mul Rat.inv Rat.ofScientific

/-! ### Basic facts about the exact JS arithmetic model -/

theorem ratFloor_eq (q : ℚ) : ratFloor q = ⌊q⌋ := Rat.floor_def.symm

theorem jsTrunc_of_nonneg {q : ℚ} (h : 0 ≤ q) : jsTrunc q = ⌊q⌋ := by
  unfold jsTrunc
  rw [if_neg (not_lt.2 h), ratFloor_eq]

theorem jsMod_nonneg_lt {a b : ℚ} (ha : 0 ≤ a) (hb : 0 < b) :
    0 ≤ jsMod a b ∧ jsMod a b < b := by
  unfold jsMod
  rw [jsTrunc_of_nonneg (div_nonneg ha hb.le)]
  have h1 : (⌊a / b⌋ : ℚ) ≤ a / b := Int.floor_le _
  have h2 : a / b < ⌊a / b⌋ + 1 := Int.lt_floor_add_one _
  have hb' : b ≠ 0 := hb.ne'
  constructor
  · have := mul_le_mul_of_nonneg_left h1 hb.le
    rw [mul_div_cancel₀ a hb'] at this
    linarith
  · have := mul_lt_mul_of_pos_left h2 hb
    rw [mul_div_cancel₀ a hb'] at this
    linarith [this]

theorem jsMod_gt_neg (a : ℚ) {b : ℚ} (hb : 0 < b) : -b < jsMod a b := by
  rcases le_or_lt 0 a with ha | ha
  · have := (jsMod_nonneg_lt ha hb).1
    linarith
  · unfold jsMod jsTrunc
    have hq : a / b < 0 := div_neg_of_neg_of_pos ha hb
    rw [if_pos hq, ratFloor_eq]
    have h2 : -(a / b) < ⌊-(a / b)⌋ + 1 := Int.lt_floor_add_one _
    have hb' : b ≠ 0 := hb.ne'
    have := mul_lt_mul_of_pos_left h2 hb
    rw [mul_neg, mul_div_cancel₀ a hb'] at this
    push_cast
    nlinarith [this]

theorem jsMod_eq_self {a b : ℚ} (ha : 0 ≤ a) (hab : a < b) : jsMod a b = a := by
  have hb : 0 < b := lt_of_le_of_lt ha hab
  unfold jsMod
  rw [jsTrunc_of_nonneg (div_nonneg ha hb.le)]
  have : ⌊a / b⌋ = 0 :=
    Int.floor_eq_zero_iff.2 ⟨div_nonneg ha hb.le, (div_lt_one hb).2 hab⟩
  rw [this]
  push_cast
  ring

theorem jsMod_add_self {a b : ℚ} (ha : 0 ≤ a) (hb : 0 < b) :
    jsMod (a + b) b = jsMod a b := by
  unfold jsMod
  have hb' : b ≠ 0 := hb.ne'
  have hd : (a + b) / b = a / b + 1 := by field_simp
  rw [jsTrunc_of_nonneg (by positivity), jsTrunc_of_nonneg (div_nonneg ha hb.le),
    hd, Int.floor_add_one]
  push_cast
  ring

theorem normHue_mem (x : ℚ) : 0 ≤ normHue x ∧ normHue x < 360 := by
  unfold normHue
  have h1 : -360 < jsMod x 360 := jsMod_gt_neg x (by norm_num)
  exact jsMod_nonneg_lt (by linarith) (by norm_num)

/-! ### Validity of produced hex strings and parsed channels -/

theorem hexVal_le (c : Char) : hexVal c ≤ 15 := by
  unfold hexVal
  split
  · omega
  split
  · omega
  split
  · omega
  · omega

theorem clampRound_le (x : ℚ) : clampRound x ≤ 255 := by
  unfold clampRound zmax zmin
  split
  · omega
  split
  · omega
  · omega

theorem digitChar_isHex {d : ℕ} (h : d < 16) : isHexDigitJS (Nat.digitChar d) = true := by
  interval_cases d <;> rfl

theorem byteChars_all_hex {n : ℕ} (h : n ≤ 255) :
    (byteChars n).all isHexDigitJS = true := by
  unfold byteChars
  simp only [List.all_cons, List.all_nil, Bool.and_true]
  rw [digitChar_isHex (by omega), digitChar_isHex (by omega)]
  rfl

theorem rgbToHex_valid (r g b : ℚ) : isValidHexColor (rgbToHex r g b) = true := by
  unfold rgbToHex isValidHexColor
  simp only [List.all_append, List.length_append]
  rw [byteChars_all_hex (clampRound_le r), byteChars_all_hex (clampRound_le g),
    byteChars_all_hex (clampRound_le b)]
  rfl

theorem toHex_valid (F : FloatOps) (c : OklchColor) : isValidHexColor (toHex F c) = true := by
  unfold toHex
  split
  · rfl
  split
  · rfl
  · exact rgbToHex_valid _ _ _

theorem selectForeground_valid (F : FloatOps) (s : String) :
    isValidHexColor (selectForeground F s) = true := by
  unfold selectForeground
  split <;> rfl

theorem hexToRgb_le (s : String) :
    (hexToRgb s).r ≤ 255 ∧ (hexToRgb s).g ≤ 255 ∧ (hexToRgb s).b ≤ 255 := by
  unfold hexToRgb
  split
  case _ c1 c2 c3 c4 c5 c6 _ _ =>
    have h1 := hexVal_le c1
    have h2 := hexVal_le c2
    have h3 := hexVal_le c3
    have h4 := hexVal_le c4
    have h5 := hexVal_le c5
    have h6 := hexVal_le c6
    refine ⟨?_, ?_, ?_⟩ <;> simp <;> omega
  · exact ⟨by simp, by simp, by simp⟩

/-! ### The gamut-mapping loop -/

theorem clampGo_invariant (F : FloatOps) (c : OklchColor) :
    ∀ (n : ℕ) (low high : ℚ) (res : OklchColor),
      0 ≤ low → low ≤ high → high ≤ c.C →
      res.L = c.L → res.H = c.H → 0 ≤ res.C → res.C ≤ c.C →
      (clampGo F c n low high res).L = c.L ∧ (clampGo F c n low high res).H = c.H ∧
        0 ≤ (clampGo F c n low high res).C ∧ (clampGo F c n low high res).C ≤ c.C := by
  intro n
  induction n with
  | zero =>
    intro low high res _ _ _ hL hH h0 h1
    exact ⟨hL, hH, h0, h1⟩
  | succ n ih =>
    intro low high res hl0 hlh hhc hL hH h0 h1
    simp only [clampGo]
    split
    · exact ih ((low + high) / 2) high ⟨c.L, (low + high) / 2, c.H⟩
        (by linarith) (by linarith) hhc rfl rfl (by linarith) (by linarith)
    · exact ih low ((low + high) / 2) res hl0 (by linarith) (by linarith) hL hH h0 h1

/-! ### Mode lists -/

theorem randomModes_getD_mem (i : ℕ) :
    randomModes.getD i GenerationMode.analogous ∈ randomModes := by
  match i with
  | 0 | 1 | 2 | 3 | 4 | 5 | 6 => decide
  | n + 7 =>
    have : randomModes.getD (n + 7) GenerationMode.analogous = .analogous := by
      simp [randomModes, List.getD]
    rw [this]
    decide

theorem randomModes_ne_random : ∀ m ∈ randomModes, m ≠ GenerationMode.random := by decide

theorem randomModes_subset_concrete : ∀ m ∈ randomModes, m ∈ concreteModes := by decide

/-! ### Claim theorems -/

/-- C10: for every `OklchColor` with non-negative chroma, `clampToSRGBGamut`
returns a color with exactly the same `L` and `H` and a chroma in
`[0, input.C]` — gamut mapping only ever changes the chroma channel. -/
theorem clampToSRGBGamut_frame (F : FloatOps) (c : OklchColor) (hC : 0 ≤ c.C) :
    (clampToSRGBGamut F c).L = c.L ∧ (clampToSRGBGamut F c).H = c.H ∧
      0 ≤ (clampToSRGBGamut F c).C ∧ (clampToSRGBGamut F c).C ≤ c.C := by
  unfold clampToSRGBGamut
  exact clampGo_invariant F c 10 0 c.C ⟨c.L, 0, c.H⟩ le_rfl hC le_rfl rfl rfl le_rfl hC

/-- Witness for C10 at the concrete out-of-gamut input `L = 1/2, C = 3, H = 50`. -/
theorem clampToSRGBGamut_frame_witness :
    0 ≤ (⟨1/2, 3, 50⟩ : OklchColor).C ∧
      ((clampToSRGBGamut FQ ⟨1/2, 3, 50⟩).L = (⟨1/2, 3, 50⟩ : OklchColor).L ∧
        (clampToSRGBGamut FQ ⟨1/2, 3, 50⟩).H = (⟨1/2, 3, 50⟩ : OklchColor).H ∧
        0 ≤ (clampToSRGBGamut FQ ⟨1/2, 3, 50⟩).C ∧
        (clampToSRGBGamut FQ ⟨1/2, 3, 50⟩).C ≤ (⟨1/2, 3, 50⟩ : OklchColor).C) :=
  ⟨by decide, clampToSRGBGamut_frame FQ ⟨1/2, 3, 50⟩ (by decide)⟩

/-- C4: for any `OklchColor` with `L` in `[0,1]`, `H` in `[0,360)` and
arbitrary non-negative chroma, the hex output of `toHex` after
`clampToSRGBGamut` is a well-formed color whose three channels are in
`[0,255]`, and the clamp is exactly the 10-iteration binary search
(it terminates by construction). -/
theorem clampToSRGBGamut_gamut_safe (F : FloatOps) (c : OklchColor)
    (_hL0 : 0 ≤ c.L) (_hL1 : c.L ≤ 1) (_hH0 : 0 ≤ c.H) (_hH1 : c.H < 360) (_hC : 0 ≤ c.C) :
    isValidHexColor (toHex F (clampToSRGBGamut F c)) = true ∧
      (hexToRgb (toHex F (clampToSRGBGamut F c))).r ≤ 255 ∧
      (hexToRgb (toHex F (clampToSRGBGamut F c))).g ≤ 255 ∧
      (hexToRgb (toHex F (clampToSRGBGamut F c))).b ≤ 255 ∧
      clampToSRGBGamut F c = clampGo F c 10 0 c.C ⟨c.L, 0, c.H⟩ :=
  ⟨toHex_valid F _, (hexToRgb_le _).1, (hexToRgb_le _).2.1, (hexToRgb_le _).2.2, rfl⟩

/-- Witness for C4 at the concrete input `L = 1/2, C = 7, H = 90` (a chroma
far outside any representable gamut). -/
theorem clampToSRGBGamut_gamut_safe_witness :
    (0 ≤ (⟨1/2, 7, 90⟩ : OklchColor).L ∧ (⟨1/2, 7, 90⟩ : OklchColor).L ≤ 1 ∧
        0 ≤ (⟨1/2, 7, 90⟩ : OklchColor).H ∧ (⟨1/2, 7, 90⟩ : OklchColor).H < 360 ∧
        0 ≤ (⟨1/2, 7, 90⟩ : OklchColor).C) ∧
      (isValidHexColor (toHex FQ (clampToSRGBGamut FQ ⟨1/2, 7, 90⟩)) = true ∧
        (hexToRgb (toHex FQ (clampToSRGBGamut FQ ⟨1/2, 7, 90⟩))).r ≤ 255 ∧
        (hexToRgb (toHex FQ (clampToSRGBGamut FQ ⟨1/2, 7, 90⟩))).g ≤ 255 ∧
        (hexToRgb (toHex FQ (clampToSRGBGamut FQ ⟨1/2, 7, 90⟩))).b ≤ 255 ∧
        clampToSRGBGamut FQ ⟨1/2, 7, 90⟩ =
          clampGo FQ ⟨1/2, 7, 90⟩ 10 0 (⟨1/2, 7, 90⟩ : OklchColor).C
            ⟨(⟨1/2, 7, 90⟩ : OklchColor).L, 0, (⟨1/2, 7, 90⟩ : OklchColor).H⟩) :=
  ⟨⟨by decide, by decide, by decide, by decide, by decide⟩,
    clampToSRGBGamut_gamut_safe FQ ⟨1/2, 7, 90⟩ (by decide) (by decide) (by decide)
      (by decide) (by decide)⟩

/-- C7: for `complementary` and a base hue in `[0,360)`, the second resolved
hue is exactly `(firstHue + 180) mod 360`, and every resolved hue of every
mode is normalized into `[0, 360)`. -/
theorem complementary_hue_exact (baseHue : ℚ) (h0 : 0 ≤ baseHue) (h1 : baseHue < 360) :
    (hueList baseHue .complementary).getD 1 0 =
        jsMod ((hueList baseHue .complementary).getD 0 0 + 180) 360 ∧
      ∀ (m : GenerationMode) (x : ℚ), ∀ h ∈ hueList x m, 0 ≤ h ∧ h < 360 := by
  constructor
  · have hfirst : (hueList baseHue .complementary).getD 0 0 = baseHue := by
      show normHue (baseHue + 0) = baseHue
      rw [add_zero]
      unfold normHue
      rw [jsMod_eq_self h0 h1, jsMod_add_self h0 (by norm_num), jsMod_eq_self h0 h1]
    rw [hfirst]
    show normHue (baseHue + 180) = jsMod (baseHue + 180) 360
    unfold normHue
    have ha : (0 : ℚ) ≤ baseHue + 180 := by linarith
    have hy := jsMod_nonneg_lt ha (show (0 : ℚ) < 360 by norm_num)
    rw [jsMod_add_self hy.1 (by norm_num), jsMod_eq_self hy.1 hy.2]
  · intro m x h hmem
    unfold hueList at hmem
    obtain ⟨o, _, rfl⟩ := List.mem_map.1 hmem
    exact normHue_mem _

/-- Witness for C7 at the concrete base hue 250. -/
theorem complementary_hue_exact_witness :
    (0 ≤ (250 : ℚ) ∧ (250 : ℚ) < 360) ∧
      ((hueList 250 .complementary).getD 1 0 =
          jsMod ((hueList 250 .complementary).getD 0 0 + 180) 360 ∧
        ∀ (m : GenerationMode) (x : ℚ), ∀ h ∈ hueList x m, 0 ≤ h ∧ h < 360) :=
  ⟨⟨by norm_num, by norm_num⟩, complementary_hue_exact 250 (by norm_num) (by norm_num)⟩

/-- C8: any input that is not six hex digits with an optional leading hash
parses to RGB zero without throwing, so `toOklch` on it returns exactly the
OKLCH coordinate of black. -/
theorem hexToRgb_malformed_black (F : FloatOps) (s : String) (h : hexDigits s = none) :
    hexToRgb s = ⟨0, 0, 0⟩ ∧ toOklch F s = toOklch F "#000000" := by
  have hrgb : hexToRgb s = ⟨0, 0, 0⟩ := by
    unfold hexToRgb
    rw [h]
  refine ⟨hrgb, ?_⟩
  unfold toOklch
  rw [hrgb, show hexToRgb "#000000" = ⟨0, 0, 0⟩ from rfl]

/-- Witness for C8 at the concrete malformed input string. -/
theorem hexToRgb_malformed_black_witness :
    hexDigits "not-a-color" = none ∧
      (hexToRgb "not-a-color" = ⟨0, 0, 0⟩ ∧
        toOklch FQ "not-a-color" = toOklch FQ "#000000") :=
  ⟨rfl, hexToRgb_malformed_black FQ "not-a-color" rfl⟩

/-- C9: `selectForeground` returns pure black exactly when the computed WCAG
relative luminance exceeds 0.179 and pure white otherwise; on pure black
input it returns white, and on pure white input (where the linearized
channel value is pow of 1 and 2.4 equal to 1) it returns black. -/
theorem selectForeground_threshold (F : FloatOps) (hpow : F.pow 1 2.4 = 1) :
    (∀ s : String, selectForeground F s = "#000000" ↔ getRelativeLuminance F s > 0.179) ∧
      selectForeground F "#000000" = "#FFFFFF" ∧
      selectForeground F "#FFFFFF" = "#000000" := by
  have hblack : getRelativeLuminance F "#000000" = 0 := by
    unfold getRelativeLuminance wcagToL
    rw [show hexToRgb "#000000" = ⟨0, 0, 0⟩ from rfl]
    norm_num
  have hwhite : getRelativeLuminance F "#FFFFFF" = 1 := by
    unfold getRelativeLuminance wcagToL
    rw [show hexToRgb "#FFFFFF" = ⟨255, 255, 255⟩ from rfl]
    simp only [show ((255 : ℕ) : ℚ) / 255 = 1 by norm_num]
    rw [if_neg (by norm_num : ¬((1 : ℚ) ≤ 4045e-5)),
      show ((1 : ℚ) + 0.055) / 1.055 = 1 by norm_num, hpow]
    norm_num
  refine ⟨fun s => ?_, ?_, ?_⟩
  · unfold selectForeground
    split
    case isTrue hcond => simpa using hcond
    case isFalse hcond =>
      constructor
      · intro hEq
        exact absurd hEq (by decide)
      · intro hl
        exact absurd hl hcond
  · unfold selectForeground
    rw [hblack, if_neg (by norm_num)]
  · unfold selectForeground
    rw [hwhite, if_pos (by norm_num)]

/-- Witness for C9: the concrete model `FQ` satisfies pow of 1 and 2.4 equal to 1, and
the threshold behavior and the two concrete evaluations follow. -/
theorem selectForeground_threshold_witness :
    FQ.pow 1 2.4 = 1 ∧
      ((∀ s : String,
          selectForeground FQ s = "#000000" ↔ getRelativeLuminance FQ s > 0.179) ∧
        selectForeground FQ "#000000" = "#FFFFFF" ∧
        selectForeground FQ "#FFFFFF" = "#000000") :=
  ⟨rfl, selectForeground_threshold FQ rfl⟩

theorem resolveHarmonyMode_concrete (F : FloatOps) {m : GenerationMode}
    (h : m ≠ GenerationMode.random) (s : ℚ) : resolveHarmonyMode F m s = m := by
  unfold resolveHarmonyMode
  rw [if_neg h]

/-- C1 (amended): when a `baseColor` is supplied, `generateTheme` is a pure
function of `(mode, baseColor, saturationLevel, contrastLevel,
brightnessLevel)` — the wall-clock/`Math.random()` entropy is ignored, so
two calls with identical arguments return byte-identical results. -/
theorem generateTheme_baseColor_deterministic (F : FloatOps) (mode : GenerationMode)
    (c : String) (sat con bri : ℚ) (e1 e2 : String) :
    generateTheme F mode (some c) sat con bri e1 =
      generateTheme F mode (some c) sat con bri e2 := rfl

/-- C1 counterexample: with `baseColor` absent the generator is seeded from
Date.now, a dash, and Math.random; two calls with identical `(mode,
saturation, contrast, brightness)` arguments but different wall-clock
entropy return different light token maps (their `bg` tokens differ). -/
theorem generateTheme_no_baseColor_entropy_cex :
    (generateTheme FQ .analogous none 0 0 0 "1700000000000-0.5").light ≠
      (generateTheme FQ .analogous none 0 0 0 "1700000000001-0.5").light :=
  fun h => absurd (congrArg ThemeTokens.bg h) (by decide)

/-- C5 (amended): the `mode` field of the result is never the wildcard
`random`; it is always one of the eight concrete harmony mode names
(`monochrome` included, since a `monochrome` request passes through). -/
theorem generateTheme_mode_concrete (F : FloatOps) (mode : GenerationMode)
    (baseColor : Option String) (sat con bri : ℚ) (e : String) :
    (generateTheme F mode baseColor sat con bri e).mode ≠ GenerationMode.random ∧
      (generateTheme F mode baseColor sat con bri e).mode ∈ concreteModes := by
  show resolveHarmonyMode F mode _ ≠ GenerationMode.random ∧
    resolveHarmonyMode F mode _ ∈ concreteModes
  by_cases h : mode = GenerationMode.random
  · subst h
    unfold resolveHarmonyMode
    rw [if_pos rfl]
    have hmem := randomModes_getD_mem
      ((ratFloor (rngVal F ((hashString (baseColor.getD e) : ℤ) : ℚ) * 7)).toNat)
    exact ⟨randomModes_ne_random _ hmem, randomModes_subset_concrete _ hmem⟩
  · rw [resolveHarmonyMode_concrete F h]
    refine ⟨h, ?_⟩
    cases mode <;> first | exact absurd rfl h | decide

/-- C5 counterexample: requesting `monochrome` returns `monochrome`, which
lies outside the seven-element concrete list used by the `random` branch —
so the resolved mode ranges over eight concrete names, not seven. -/
theorem generateTheme_mode_monochrome_cex :
    (generateTheme FQ .monochrome none 0 0 0 "t").mode = GenerationMode.monochrome ∧
      GenerationMode.monochrome ∉ randomModes ∧
      randomModes.length = 7 ∧ concreteModes.length = 8 :=
  ⟨rfl, by decide, rfl, rfl⟩

/-- C2 (amended): a `random` request resolves, via the first draw of the
seeded generator, to one of the seven non-monochrome concrete modes (a list
that does include `complementary`), and — when a `baseColor` is supplied —
the result is identical to requesting that concrete mode directly. -/
theorem generateTheme_random_resolves (F : FloatOps) (c : String) (sat con bri : ℚ)
    (e : String) :
    ∃ hm ∈ randomModes,
      (generateTheme F .random (some c) sat con bri e).mode = hm ∧
        generateTheme F hm (some c) sat con bri e =
          generateTheme F .random (some c) sat con bri e := by
  refine ⟨resolveHarmonyMode F .random
    ((hashString ((some c : Option String).getD e) : ℤ) : ℚ), ?_, rfl, ?_⟩
  · unfold resolveHarmonyMode
    rw [if_pos rfl]
    exact randomModes_getD_mem _
  · have hmem : resolveHarmonyMode F .random
        ((hashString ((some c : Option String).getD e) : ℤ) : ℚ) ∈ randomModes := by
      unfold resolveHarmonyMode
      rw [if_pos rfl]
      exact randomModes_getD_mem _
    have hne := randomModes_ne_random _ hmem
    unfold generateTheme
    rw [resolveHarmonyMode_concrete F hne]
    rfl

/-- C2 counterexample: at this concrete input the `random` wildcard resolves
to `complementary`, which the claim excludes from the draw pool (the pool
excludes only `monochrome`). -/
theorem generateTheme_random_complementary_cex :
    (generateTheme FQ .random none 0 0 0 "1700000000001-0.5").mode =
        GenerationMode.complementary ∧
      GenerationMode.complementary ∈ randomModes :=
  ⟨rfl, by decide⟩

theorem lightTheme_all_valid (F : FloatOps) (sat con bri : ℚ) (hues : List ℚ) :
    ((tokenList (lightTheme F sat con bri hues)).all
      fun p => isValidHexColor p.2) = true := by
  simp only [tokenList, lightTheme, List.all_cons, List.all_nil, Bool.and_true,
    toHex_valid, selectForeground_valid,
    show isValidHexColor "#FFFFFF" = true from rfl, Bool.and_self]

theorem darkTheme_all_valid (F : FloatOps) (sat con bri : ℚ) (hues : List ℚ) :
    ((tokenList (darkTheme F sat con bri hues)).all
      fun p => isValidHexColor p.2) = true := by
  simp only [tokenList, darkTheme, List.all_cons, List.all_nil, Bool.and_true,
    toHex_valid, selectForeground_valid,
    show isValidHexColor "#FFFFFF" = true from rfl, Bool.and_self]

/-- C3: for every input (any of the 9 modes, any optional base color, any
adjustment levels) both returned token sets carry exactly the 20 fixed
semantic keys, and each of the 40 values is a well-formed hash-prefixed
6-hex-digit color string. -/
theorem generateTheme_tokens_complete (F : FloatOps) (mode : GenerationMode)
    (baseColor : Option String) (sat con bri : ℚ) (e : String) :
    (tokenList (generateTheme F mode baseColor sat con bri e).light).map Prod.fst
        = tokenKeys ∧
      (tokenList (generateTheme F mode baseColor sat con bri e).dark).map Prod.fst
        = tokenKeys ∧
      ((tokenList (generateTheme F mode baseColor sat con bri e).light).all
        fun p => isValidHexColor p.2) = true ∧
      ((tokenList (generateTheme F mode baseColor sat con bri e).dark).all
        fun p => isValidHexColor p.2) = true :=
  ⟨rfl, rfl, lightTheme_all_valid F sat con bri _, darkTheme_all_valid F sat con bri _⟩

/-- C6 (amended): in one call, light and dark brand colors are built from
the same resolved hues (`hues[0]`, `hues[1]`, `hues[2]`), status colors
share the fixed hues 145/85/25, and both themes scale the same
`baseChroma` — but with different per-theme factors: light uses
`1 / 0.85 / 1.1` and dark uses `0.9 / 0.8 / 1` for
primary/secondary/accent. -/
theorem light_dark_hue_consistency (F : FloatOps) (sat con bri : ℚ) (hues : List ℚ) :
    (lightPrimaryIn sat bri hues).H = (darkPrimaryIn sat bri hues).H ∧
      (lightSecondaryIn sat bri hues).H = (darkSecondaryIn sat bri hues).H ∧
      (lightAccentIn sat bri hues).H = (darkAccentIn sat bri hues).H ∧
      (lightGoodIn sat bri).H = 145 ∧ (darkGoodIn sat bri).H = 145 ∧
      (lightWarnIn sat bri).H = 85 ∧ (darkWarnIn sat bri).H = 85 ∧
      (lightBadIn sat bri).H = 25 ∧ (darkBadIn sat bri).H = 25 ∧
      (lightPrimaryIn sat bri hues).C = baseChroma sat ∧
      (darkPrimaryIn sat bri hues).C = baseChroma sat * 0.9 ∧
      (lightSecondaryIn sat bri hues).C = baseChroma sat * 0.85 ∧
      (darkSecondaryIn sat bri hues).C = baseChroma sat * 0.8 ∧
      (lightAccentIn sat bri hues).C = baseChroma sat * 1.1 ∧
      (darkAccentIn sat bri hues).C = baseChroma sat ∧
      (lightTheme F sat con bri hues).primary =
        toHex F (clampToSRGBGamut F (lightPrimaryIn sat bri hues)) ∧
      (darkTheme F sat con bri hues).primary =
        toHex F (clampToSRGBGamut F (darkPrimaryIn sat bri hues)) ∧
      (lightTheme F sat con bri hues).secondary =
        toHex F (clampToSRGBGamut F (lightSecondaryIn sat bri hues)) ∧
      (darkTheme F sat con bri hues).secondary =
        toHex F (clampToSRGBGamut F (darkSecondaryIn sat bri hues)) ∧
      (lightTheme F sat con bri hues).accent =
        toHex F (clampToSRGBGamut F (lightAccentIn sat bri hues)) ∧
      (darkTheme F sat con bri hues).accent =
        toHex F (clampToSRGBGamut F (darkAccentIn sat bri hues)) :=
  ⟨rfl, rfl, rfl, rfl, rfl, rfl, rfl, rfl, rfl, rfl, rfl, rfl, rfl, rfl, rfl, rfl,
    rfl, rfl, rfl, rfl, rfl⟩

/-- C6 counterexample: at saturation level 0 the chroma fed to the gamut
mapper for `light.primary` is `0.14` while for `dark.primary` it is
`0.126 = 0.14 * 0.9` — the chroma scaling factors of the two themes are
not the same. -/
theorem light_dark_chroma_cex :
    (lightPrimaryIn 0 0 [10, 40, 340, 25, 335]).C ≠
      (darkPrimaryIn 0 0 [10, 40, 340, 25, 335]).C := by decide

end
